import Mathlib

/-!
Verification development for the linkedin-post-bot repository.

The Python sources (`main.py`, `post_generator.py`) are shallowly embedded
below: pure helpers become Lean functions, the sqlite ledger becomes explicit
state passing over a list of rows, exceptions become `Except`/`Option`
results, and the orchestrator `main()` becomes a function from an environment
of external-call outcomes to a run result that records the exit code, the
final ledger state and the ordered trace of external effects.
-/

/-- Equality on `Except` is decidable when it is on both components. -/
instance {ε α : Type} [DecidableEq ε] [DecidableEq α] : DecidableEq (Except ε α)
  | .error e, .error f =>
    if h : e = f then .isTrue (congrArg Except.error h)
    else .isFalse (fun hc => h (Except.error.inj hc))
  | .error _, .ok _ => .isFalse (fun hc => Except.noConfusion hc)
  | .ok _, .error _ => .isFalse (fun hc => Except.noConfusion hc)
  | .ok a, .ok b =>
    if h : a = b then .isTrue (congrArg Except.ok h)
    else .isFalse (fun hc => h (Except.ok.inj hc))

namespace LinkedinBot

/-! ## Python `datetime` model

A value of `datetime.datetime`: calendar fields plus an optional UTC offset
(in minutes).  `utcoffsetMinutes = none` models a naive datetime (no
`tzinfo`); `some o` models an aware one. -/

structure PyDateTime where
  year : Nat
  month : Nat
  day : Nat
  hour : Nat
  minute : Nat
  second : Nat
  microsecond : Nat
  utcoffsetMinutes : Option Int
deriving DecidableEq

def isLeapYear (y : Nat) : Bool :=
  y % 4 = 0 && (y % 100 ≠ 0 || y % 400 = 0)

def daysInMonth (y m : Nat) : Nat :=
  if m = 2 then (if isLeapYear y then 29 else 28)
  else if m = 4 ∨ m = 6 ∨ m = 9 ∨ m = 11 then 30
  else 31

/-- Days in year `y` strictly before month `m` (model of `_days_before_month`). -/
def daysBeforeMonth (y m : Nat) : Nat :=
  ((List.range (m - 1)).map (fun i => daysInMonth y (i + 1))).sum

/-- Proleptic-Gregorian ordinal of a date, day 1 = 0001-01-01 (model of
`datetime.date.toordinal`). -/
def toOrdinal (y m d : Nat) : Nat :=
  365 * (y - 1) + (y - 1) / 4 - (y - 1) / 100 + (y - 1) / 400 + daysBeforeMonth y m + d

/-- The calendar fields flattened to microseconds, ignoring any offset; for in
range fields this ordering agrees with CPython field-tuple comparison of two
naive datetimes. -/
def naiveMicros (dt : PyDateTime) : Int :=
  ((((toOrdinal dt.year dt.month dt.day : Int) * 24 + dt.hour) * 60 + dt.minute)
      * 60 + dt.second) * 1000000 + dt.microsecond

/-- The instant denoted by an aware datetime (microseconds, offset removed);
for a naive one the offset is taken as 0. -/
def instantMicros (dt : PyDateTime) : Int :=
  naiveMicros dt - (dt.utcoffsetMinutes.getD 0) * 60000000

/-- Python comparison `a >= b` on datetimes: defined between two naive values
(field comparison) and between two aware values (instant comparison); a mixed
comparison raises `TypeError`, modelled by `none`. -/
def pyGE (a b : PyDateTime) : Option Bool :=
  match a.utcoffsetMinutes, b.utcoffsetMinutes with
  | none, none => some (decide (naiveMicros b ≤ naiveMicros a))
  | some oa, some ob =>
      some (decide (naiveMicros b - ob * 60000000 ≤ naiveMicros a - oa * 60000000))
  | _, _ => none

/-! ## `datetime.fromisoformat` model

Models CPython `datetime.fromisoformat` on the classical `isoformat` grammar
`YYYY-MM-DD[<sep>HH:MM[:SS[.f{1,6}]][±HH:MM]]` with full range validation;
the repository only ever feeds it feed timestamps of this shape (after
replacing a trailing `Z` by `+00:00`). -/

def charDigit (c : Char) : Option Nat :=
  if '0' ≤ c ∧ c ≤ '9' then some (c.toNat - '0'.toNat) else none

/-- Consume exactly `n` decimal digits, returning their value and the rest. -/
def readFixedNat (n : Nat) (acc : Nat) (cs : List Char) : Option (Nat × List Char) :=
  match n with
  | 0 => some (acc, cs)
  | n + 1 =>
    match cs with
    | [] => none
    | c :: rest =>
      match charDigit c with
      | some d => readFixedNat n (acc * 10 + d) rest
      | none => none

def expectChar (c : Char) (cs : List Char) : Option (List Char) :=
  match cs with
  | [] => none
  | x :: rest => if x = c then some rest else none

/-- Consume a maximal run of digits, returning value, digit count and rest. -/
def readAllDigits (cs : List Char) (acc k : Nat) : Nat × Nat × List Char :=
  match cs with
  | [] => (acc, k, [])
  | c :: rest =>
    match charDigit c with
    | some d => readAllDigits rest (acc * 10 + d) (k + 1)
    | none => (acc, k, c :: rest)

/-- Parse a trailing UTC offset `±HH:MM` (or nothing, giving a naive value). -/
def parseTzOffset (cs : List Char) : Option (Option Int) :=
  match cs with
  | [] => some none
  | c :: rest =>
    if c = '+' ∨ c = '-' then
      match readFixedNat 2 0 rest with
      | none => none
      | some (hh, r1) =>
        match expectChar ':' r1 with
        | none => none
        | some r2 =>
          match readFixedNat 2 0 r2 with
          | some (mm, []) =>
            if hh ≤ 23 ∧ mm ≤ 59 then
              some (some (if c = '-' then -((hh * 60 + mm : Nat) : Int)
                          else ((hh * 60 + mm : Nat) : Int)))
            else none
          | _ => none
    else none

/-- Parse `HH:MM[:SS[.f{1,6}]]` followed by an optional offset. -/
def parseTimeAndOffset (cs : List Char) : Option (Nat × Nat × Nat × Nat × Option Int) :=
  match readFixedNat 2 0 cs with
  | none => none
  | some (hh, r1) =>
    match expectChar ':' r1 with
    | none => none
    | some r2 =>
      match readFixedNat 2 0 r2 with
      | none => none
      | some (mm, r3) =>
        if hh ≤ 23 ∧ mm ≤ 59 then
          match r3 with
          | ':' :: r4 =>
            match readFixedNat 2 0 r4 with
            | none => none
            | some (ss, r5) =>
              if ss ≤ 59 then
                match r5 with
                | '.' :: r6 =>
                  match readAllDigits r6 0 0 with
                  | (v, k, r7) =>
                    if 1 ≤ k ∧ k ≤ 6 then
                      match parseTzOffset r7 with
                      | none => none
                      | some tz => some (hh, mm, ss, v * 10 ^ (6 - k), tz)
                    else none
                | _ =>
                  match parseTzOffset r5 with
                  | none => none
                  | some tz => some (hh, mm, ss, 0, tz)
              else none
          | _ =>
            match parseTzOffset r3 with
            | none => none
            | some tz => some (hh, mm, 0, 0, tz)
        else none

def fromisoformat (s : String) : Option PyDateTime :=
  match readFixedNat 4 0 s.data with
  | none => none
  | some (y, r1) =>
    match expectChar '-' r1 with
    | none => none
    | some r2 =>
      match readFixedNat 2 0 r2 with
      | none => none
      | some (m, r3) =>
        match expectChar '-' r3 with
        | none => none
        | some r4 =>
          match readFixedNat 2 0 r4 with
          | none => none
          | some (d, r5) =>
            if 1 ≤ y ∧ 1 ≤ m ∧ m ≤ 12 ∧ 1 ≤ d ∧ d ≤ daysInMonth y m then
              match r5 with
              | [] => some ⟨y, m, d, 0, 0, 0, 0, none⟩
              | _ :: r6 =>
                match parseTimeAndOffset r6 with
                | none => none
                | some (hh, mm, ss, us, tz) => some ⟨y, m, d, hh, mm, ss, us, tz⟩
            else none

/-- Replace every occurrence of a nonempty pattern, left to right (model of
Python `str.replace`); the fuel argument is instantiated with the length of
the subject so the recursion is structural. -/
def replaceAux (pat rep : List Char) : Nat → List Char → List Char
  | 0, s => s
  | _, [] => []
  | fuel + 1, c :: cs =>
    if pat ≠ [] ∧ pat.isPrefixOf (c :: cs) then
      rep ++ replaceAux pat rep fuel (List.drop pat.length (c :: cs))
    else c :: replaceAux pat rep fuel cs

/-- Model of Python `str.replace` (never called with an empty pattern here). -/
def pyReplace (s pat rep : String) : String :=
  ⟨replaceAux pat.data rep.data s.data.length s.data⟩

/-- Embedding of `parse_publish_date` (main.py:80): empty string is falsy and
yields `None`; otherwise every `Z` is rewritten to `+00:00` and the
string is handed to `fromisoformat`, with `ValueError` mapped to `None`. -/
def parse_publish_date (date_str : String) : Option PyDateTime :=
  if date_str = "" then none
  else fromisoformat (pyReplace date_str "Z" "+00:00")

/-- Embedding of `MIN_PUBLISH_DATE` (main.py:22):
`datetime(2025, 12, 11, tzinfo=timezone.utc)` — aware, offset 0. -/
def MIN_PUBLISH_DATE : PyDateTime :=
  ⟨2025, 12, 11, 0, 0, 0, 0, some 0⟩

/-! ## Candidate articles and the eligibility filter (main.py:179-186) -/

/-- A fetched article dict; `none` models an absent key (`dict.get` default). -/
structure Article where
  link : Option String
  title : Option String
  description : Option String
  body : Option String
  publishedAt : Option String
deriving DecidableEq

/-- The check `a.get("link") in published_urls`: an absent link is Python
`None`, which is never a member of a set of strings. -/
def linkInPublished (published_urls : List String) (a : Article) : Bool :=
  match a.link with
  | some l => decide (l ∈ published_urls)
  | none => false

/-- `TypeError` raised by a naive/aware datetime comparison. -/
inductive PyErr where
  | typeError
deriving DecidableEq

/-- One iteration of the filter loop body (main.py:180-186): skip if the link
is already published, parse `a.get("publishedAt", "")`, keep when the parse
succeeded (a datetime object is always truthy) and the comparison with
the cutoff returns true; a mixed naive/aware comparison raises. -/
def articleEligible (published_urls : List String) (cutoff : PyDateTime)
    (a : Article) : Except PyErr Bool :=
  if linkInPublished published_urls a then .ok false
  else
    match parse_publish_date (a.publishedAt.getD "") with
    | none => .ok false
    | some pub_date =>
      match pyGE pub_date cutoff with
      | none => .error .typeError
      | some b => .ok b

/-- The filter loop (main.py:179-186), appending survivors in order; an
exception in an iteration aborts the whole loop. -/
def selectEligible (articles : List Article) (published_urls : List String)
    (cutoff : PyDateTime) : Except PyErr (List Article) :=
  match articles with
  | [] => .ok []
  | a :: rest =>
    match articleEligible published_urls cutoff a with
    | .error e => .error e
    | .ok true =>
      match selectEligible rest published_urls cutoff with
      | .error e => .error e
      | .ok l => .ok (a :: l)
    | .ok false => selectEligible rest published_urls cutoff

/-- The filter exactly as `main` runs it, with the fixed cutoff constant. -/
def filterNewArticles (articles : List Article) (published_urls : List String) :
    Except PyErr (List Article) :=
  selectEligible articles published_urls MIN_PUBLISH_DATE

/-! ## The sqlite ledger (main.py:25-77)

A row of `published_articles`; the autoincrement `id` and the defaulted
`published_at` timestamp are not observable by any claim and are omitted.
The database state is the list of rows in insertion order. -/

structure DbRow where
  url : String
  title : Option String
  linkedin_post_id : String
deriving DecidableEq

/-- Constraint violations surfaced by sqlite (`sqlite3.IntegrityError`). -/
inductive SqlError where
  | uniqueViolation
deriving DecidableEq

/-- Embedding of `save_published_article` (main.py:69): a plain INSERT; the
`url TEXT UNIQUE NOT NULL` column constraint (main.py:32) makes the insert
fail with an integrity error when the url is already present, and the
function does not catch it. -/
def save_published_article (db : List DbRow) (url : String)
    (title : Option String) (linkedin_post_id : String) :
    Except SqlError (List DbRow) :=
  if url ∈ db.map DbRow.url then .error .uniqueViolation
  else .ok (db ++ [⟨url, title, linkedin_post_id⟩])

/-- Embedding of `get_published_urls` (main.py:60): the set of stored urls,
modelled as the duplicate-free list of row urls. -/
def get_published_urls (db : List DbRow) : List String :=
  (db.map DbRow.url).dedup

/-! ## Post text generation (post_generator.py:81-113) -/

/-- Python whitespace for `str.strip` (the ASCII whitespace characters; the
strings involved here contain no exotic unicode spaces). -/
def pyIsSpace (c : Char) : Bool :=
  c = ' ' ∨ c = '\t' ∨ c = '\n' ∨ c = '\r' ∨ c = '\x0b' ∨ c = '\x0c'

/-- Model of Python `str.strip()`: drop whitespace from both ends. -/
def pyStrip (s : String) : String :=
  ⟨((s.data.dropWhile pyIsSpace).reverse.dropWhile pyIsSpace).reverse⟩

/-- `PostGenerationError`: either the too-short validation failure or any
other exception wrapped with the `Failed to generate post:` message. -/
inductive PostGenerationError where
  | emptyOrShort
  | wrapped (msg : String)
deriving DecidableEq

/-- Embedding of `generate_linkedin_post` (post_generator.py:81-113).  The
underlying workflow invocation (an LLM call) is an oracle passed in as
`llm`: `.ok s` models a run where `invoke` returned normally with
`post_text = s`, `.error m` one where it raised an exception with message
`m`.  The article fields only feed the prompt and cannot change the control
flow. -/
def generate_linkedin_post (title description body : String)
    (previous_posts : Option (List String)) (llm : Except String String) :
    Except PostGenerationError String :=
  match llm with
  | .error e => .error (.wrapped ("Failed to generate post: " ++ e))
  | .ok post_text =>
    if post_text = "" ∨ (pyStrip post_text).length < 20 then .error .emptyOrShort
    else .ok post_text

/-- Embedding of `create_post_text` (main.py:143): pulls the article fields
with empty-string defaults and calls the generator. -/
def create_post_text (a : Article) (llm : Except String String) :
    Except PostGenerationError String :=
  generate_linkedin_post (a.title.getD "") (a.description.getD "")
    (a.body.getD "") none llm

/-! ## The orchestrator `main` (main.py:154-222) -/

/-- Response dict of the publish call; `id` may be absent
(`result.get("id", "")`). -/
structure PublishResp where
  id : Option String
deriving DecidableEq

/-- Python truthiness test `if not x` for `os.environ.get` results: true when
the variable is unset or the empty string. -/
def pyFalsy (x : Option String) : Bool :=
  match x with
  | none => true
  | some s => s = ""

/-- Outcomes of the external calls a run makes, fixed before the run. -/
structure Env where
  access_token : Option String
  articles_api_url : Option String
  fetchResult : Except Unit (List Article)
  userIdResult : Except Unit String
  llmResult : Except String String
  publishResult : Except Unit PublishResp

/-- External effects of a run, in the order they were performed. -/
inductive Event where
  | fetch
  | userId
  | gen
  | publish (url : String)
  | backup
  | record (url : String)
deriving DecidableEq

def Event.isPublish : Event → Bool
  | .publish _ => true
  | _ => false

structure RunResult where
  exitCode : Nat
  db : List DbRow
  events : List Event
deriving DecidableEq

/-- Embedding of `main` (main.py:154-222) as run by `exit(main())`
(main.py:226): explicit `return` statements give their exit code, and an
uncaught exception (fetch failure, `TypeError` during filtering, identity
failure, publish failure, integrity error on insert) terminates the process
with exit code 1.  The ledger state is threaded explicitly and the trace
records each external effect. -/
def runMain (env : Env) (db0 : List DbRow) : RunResult :=
  if pyFalsy env.access_token then ⟨1, db0, []⟩
  else if pyFalsy env.articles_api_url then ⟨1, db0, []⟩
  else
    match env.fetchResult with
    | .error _ => ⟨1, db0, [.fetch]⟩
    | .ok articles =>
      match filterNewArticles articles (get_published_urls db0) with
      | .error _ => ⟨1, db0, [.fetch]⟩
      | .ok [] => ⟨0, db0, [.fetch]⟩
      | .ok (article :: _) =>
        match env.userIdResult with
        | .error _ => ⟨1, db0, [.fetch, .userId]⟩
        | .ok _user_id =>
          match create_post_text article env.llmResult with
          | .error _ => ⟨1, db0, [.fetch, .userId, .gen]⟩
          | .ok _post_text =>
            match env.publishResult with
            | .error _ =>
              ⟨1, db0, [.fetch, .userId, .gen, .publish (article.link.getD "")]⟩
            | .ok result =>
              match save_published_article db0 (article.link.getD "")
                  article.title ((result.id).getD "") with
              | .error _ =>
                ⟨1, db0, [.fetch, .userId, .gen, .publish (article.link.getD ""),
                  .backup, .record (article.link.getD "")]⟩
              | .ok db1 =>
                ⟨0, db1, [.fetch, .userId, .gen, .publish (article.link.getD ""),
                  .backup, .record (article.link.getD "")]⟩

/-! ## Backup rotation (main.py:43-57)

The backup directory is modelled as the list of backup file timestamps
present, kept sorted in descending order with no duplicates — exactly what
`sorted(BACKUP_DIR.glob(...), reverse=True)` recovers from the directory,
since the second-resolution `%Y%m%d_%H%M%S` names sort lexicographically as
timestamps. -/

/-- Insert a timestamp into a descending duplicate-free list.  An existing
equal timestamp is left in place: `shutil.copy2` to an existing path
overwrites the file and creates nothing new. -/
def insertBackup (ts : Nat) : List Nat → List Nat
  | [] => [ts]
  | x :: xs =>
    if x < ts then ts :: x :: xs
    else if x = ts then x :: xs
    else x :: insertBackup ts xs

/-- Embedding of `backup_db` (main.py:43): no-op when the ledger file does
not exist; otherwise write `published_<now>.db` and unlink every backup after
the fifth most recent. -/
def backup_db (dbExists : Bool) (now : Nat) (dir : List Nat) : List Nat :=
  if dbExists then (insertBackup now dir).take 5 else dir

/-- A sequence of `backup_db` calls with the ledger file present, starting
from an empty backup directory, at the given clock readings. -/
def backupRun (times : List Nat) : List Nat :=
  times.foldl (fun dir t => backup_db true t dir) []

/-! ## Spec-side definitions

These follow the words of the specification, for comparison with the
embedded code. -/

/-- Spec-side eligibility of one candidate (spec section 4.3): keep a
candidate iff its link is not in the known-url set (an absent link is in no
set of urls), its publish timestamp parses, and the parsed instant is at or
after the cutoff. -/
def specEligible (knownUrls : List String) (cutoff : PyDateTime)
    (a : Article) : Bool :=
  (match a.link with
   | some l => decide (l ∉ knownUrls)
   | none => true) &&
  (match parse_publish_date (a.publishedAt.getD "") with
   | some dt => decide (instantMicros cutoff ≤ instantMicros dt)
   | none => false)

/-- A candidate whose publish date, when it parses at all, carries a UTC
offset.  On such candidates the code never hits the naive/aware comparison. -/
def awareParsed (a : Article) : Bool :=
  match parse_publish_date (a.publishedAt.getD "") with
  | some dt => dt.utcoffsetMinutes.isSome
  | none => true

/-! ## Concrete sample data for witnesses and counterexamples -/

/-- Published exactly at the cutoff instant. -/
def artAtCutoff : Article :=
  ⟨some "https://e.com/a", some "A", none, none, some "2025-12-11T00:00:00Z"⟩

/-- Published one microsecond before the cutoff. -/
def artJustBefore : Article :=
  ⟨some "https://e.com/b", some "B", none, none,
    some "2025-12-10T23:59:59.999999Z"⟩

/-- No `publishedAt` key at all. -/
def artNoDate : Article := ⟨some "https://e.com/c", some "C", none, none, none⟩

/-- A `publishedAt` that does not parse. -/
def artBadDate : Article :=
  ⟨some "https://e.com/d", some "D", none, none, some "not-a-date"⟩

/-- A recent article whose link is already in the ledger (as url `k`). -/
def artKnown : Article := ⟨some "k", some "K", none, none, some "2025-12-12T00:00:00Z"⟩

/-- A valid ISO-8601 publish date with no UTC offset: it parses to a naive
datetime. -/
def artNaive : Article :=
  ⟨some "https://e.com/n", some "N", none, none, some "2025-12-15T10:00:00"⟩

/-- Another naive-dated article. -/
def artNaive2 : Article := ⟨some "https://e.com/m", none, none, none, some "2025-12-16T08:30:00"⟩

/-- A fresh eligible article with a link. -/
def artFresh : Article :=
  ⟨some "https://e.com/f", some "F", none, none, some "2025-12-20T12:00:00Z"⟩

/-- A fresh eligible article whose dict has no `link` key. -/
def artNoLink : Article := ⟨none, some "L", none, none, some "2025-12-12T00:00:00Z"⟩

/-- A generated post text long enough to pass validation. -/
def okPost : String := "Excited to share my new article with all of you today!"

/-! ## Lemmas about the eligibility filter -/

lemma articleEligible_of_aware (pubs : List String) (cutoff : PyDateTime)
    (oc : Int) (hc : cutoff.utcoffsetMinutes = some oc) (a : Article)
    (ha : awareParsed a = true) :
    articleEligible pubs cutoff a = .ok (specEligible pubs cutoff a) := by
  unfold articleEligible specEligible linkInPublished
  cases hl : a.link with
  | some l =>
    by_cases hm : l ∈ pubs
    · simp [hl, hm]
    · cases hp : parse_publish_date (a.publishedAt.getD "") with
      | none => simp [hl, hm, hp]
      | some dt =>
        have ha2 : dt.utcoffsetMinutes.isSome = true := by
          have h3 := ha
          unfold awareParsed at h3
          rw [hp] at h3
          simpa using h3
        obtain ⟨o, ho⟩ := Option.isSome_iff_exists.mp ha2
        simp [hl, hm, hp, pyGE, ho, hc, instantMicros]
  | none =>
    cases hp : parse_publish_date (a.publishedAt.getD "") with
    | none => simp [hl, hp]
    | some dt =>
      have ha2 : dt.utcoffsetMinutes.isSome = true := by
        have h3 := ha
        unfold awareParsed at h3
        rw [hp] at h3
        simpa using h3
      obtain ⟨o, ho⟩ := Option.isSome_iff_exists.mp ha2
      simp [hl, hp, pyGE, ho, hc, instantMicros]

lemma selectEligible_of_aware (pubs : List String) (cutoff : PyDateTime)
    (oc : Int) (hc : cutoff.utcoffsetMinutes = some oc) :
    ∀ articles : List Article, (∀ a ∈ articles, awareParsed a = true) →
      selectEligible articles pubs cutoff =
        .ok (articles.filter (specEligible pubs cutoff)) := by
  intro articles
  induction articles with
  | nil => intro h; rfl
  | cons a rest ih =>
    intro h
    have ha := h a (List.mem_cons_self a rest)
    have hrest := ih (fun b hb => h b (List.mem_cons_of_mem a hb))
    unfold selectEligible
    rw [articleEligible_of_aware pubs cutoff oc hc a ha, hrest]
    cases hs : specEligible pubs cutoff a <;> simp [List.filter_cons, hs]

lemma selectEligible_sublist :
    ∀ (articles : List Article) (pubs : List String) (cutoff : PyDateTime)
      (res : List Article), selectEligible articles pubs cutoff = .ok res →
      List.Sublist res articles := by
  intro articles
  induction articles with
  | nil =>
    intro pubs cutoff res h
    simp [selectEligible] at h
    simp [← h]
  | cons a rest ih =>
    intro pubs cutoff res h
    unfold selectEligible at h
    cases he : articleEligible pubs cutoff a <;> rw [he] at h
    · simp at h
    case ok b =>
      cases b with
      | false => exact List.Sublist.cons a (ih pubs cutoff res h)
      | true =>
        cases hrec : selectEligible rest pubs cutoff <;> rw [hrec] at h
        · simp at h
        case ok l =>
          simp at h
          rw [← h]
          exact List.Sublist.cons₂ a (ih pubs cutoff l hrec)

/-! ## Claim C1 -/

/-- C1 (amended): on candidate lists whose parse results are offset-aware,
the filter keeps exactly the candidates whose link is not in the known-url
set, whose publishedAt parses, and whose parsed timestamp is at or after the
cutoff; a candidate at the cutoff is kept, absence or parse failure discards
the candidate without aborting. -/
theorem eligible_filter_matches_spec (articles : List Article)
    (published_urls : List String)
    (h : ∀ a ∈ articles, awareParsed a = true) :
    filterNewArticles articles published_urls =
      .ok (articles.filter (specEligible published_urls MIN_PUBLISH_DATE)) :=
  selectEligible_of_aware published_urls MIN_PUBLISH_DATE 0 rfl articles h

/-- C1 counterexample to the unrestricted claim: a candidate with a valid
no-offset publish date after the cutoff should be kept per the claim, but
the filter raises a TypeError instead of returning a sublist. -/
theorem eligible_filter_counterexample :
    filterNewArticles [artNaive] [] = .error .typeError ∧
    List.filter (specEligible [] MIN_PUBLISH_DATE) [artNaive] = [artNaive] := by
  decide

/-- C1 witness: offset-aware candidates covering the cutoff boundary, a
missing date, an unparseable date and an already-known link. -/
theorem eligible_filter_matches_spec_witness :
    (∀ a ∈ [artAtCutoff, artJustBefore, artNoDate, artBadDate, artKnown],
      awareParsed a = true) ∧
    filterNewArticles [artAtCutoff, artJustBefore, artNoDate, artBadDate, artKnown]
      ["k"] = .ok [artAtCutoff] :=
  ⟨by decide, (eligible_filter_matches_spec _ _ (by decide)).trans (by decide)⟩

/-! ## Claim C9 -/

/-- C9: filtering is not total — a candidate whose publishedAt is a valid
ISO-8601 timestamp without an offset parses fine, and the comparison with
the timezone-aware cutoff then raises a TypeError that aborts the run. -/
theorem filter_naive_date_raises :
    filterNewArticles [artNaive2] [] = .error .typeError ∧
    parse_publish_date "2025-12-16T08:30:00" ≠ none := by
  decide

/-! ## Claim C2 -/

/-- C2: a second record of the same url after a successful first one fails
with the uniqueness violation, after which the ledger holds that url exactly
once; and the orchestrator does not swallow the error — a failing insert
aborts the run with exit code 1. -/
theorem record_twice_fails :
    (∀ (db db2 : List DbRow) (u : String) (t t2 : Option String) (p p2 : String),
      save_published_article db u t p = .ok db2 →
      save_published_article db2 u t2 p2 = .error .uniqueViolation ∧
      (db2.map DbRow.url).count u = 1 ∧ u ∈ get_published_urls db2) ∧
    (∀ (env : Env) (db0 : List DbRow) (arts : List Article) (a : Article)
      (rest : List Article) (uid txt : String) (resp : PublishResp),
      pyFalsy env.access_token = false → pyFalsy env.articles_api_url = false →
      env.fetchResult = .ok arts →
      filterNewArticles arts (get_published_urls db0) = .ok (a :: rest) →
      env.userIdResult = .ok uid → create_post_text a env.llmResult = .ok txt →
      env.publishResult = .ok resp →
      save_published_article db0 (a.link.getD "") a.title ((resp.id).getD "") =
        .error .uniqueViolation →
      runMain env db0 =
        ⟨1, db0, [.fetch, .userId, .gen, .publish (a.link.getD ""), .backup,
          .record (a.link.getD "")]⟩) := by
  constructor
  · intro db db2 u t t2 p p2 h
    unfold save_published_article at h ⊢
    by_cases hm : u ∈ db.map DbRow.url
    · simp [hm] at h
    · simp only [hm, if_false] at h
      have hdb : db2 = db ++ [⟨u, t, p⟩] := by
        cases h
        rfl
      subst hdb
      refine ⟨?_, ?_, ?_⟩
      · simp
      · simp [List.count_append, List.count_eq_zero.mpr hm]
      · unfold get_published_urls
        simp [List.mem_dedup]
  · intro env db0 arts a rest uid txt resp h1 h2 hf hfl hu hg hp hs
    simp [runMain, h1, h2, hf, hfl, hu, hg, hp, hs]

/-- C2 witness: recording url `u` into an empty ledger succeeds, a second
record of `u` hits the uniqueness constraint, and `u` is stored once. -/
theorem record_twice_fails_witness :
    save_published_article [] "u" none "p1" = .ok [⟨"u", none, "p1"⟩] ∧
    (save_published_article [⟨"u", none, "p1"⟩] "u" none "p2" =
        .error .uniqueViolation ∧
      (([(⟨"u", none, "p1"⟩ : DbRow)].map DbRow.url).count "u" = 1) ∧
      "u" ∈ get_published_urls [⟨"u", none, "p1"⟩]) :=
  ⟨by decide, record_twice_fails.1 [] [⟨"u", none, "p1"⟩] "u" none none "p1" "p2"
    (by decide)⟩

/-! ## Case analysis of a run -/

/-- Exhaustive case analysis of a run: every run result is one of the nine
syntactic outcomes of `main`. -/
lemma runMain_cases (env : Env) (db0 : List DbRow) :
    (runMain env db0 = ⟨1, db0, []⟩)
    ∨ (runMain env db0 = ⟨1, db0, [.fetch]⟩)
    ∨ (runMain env db0 = ⟨0, db0, [.fetch]⟩)
    ∨ (runMain env db0 = ⟨1, db0, [.fetch, .userId]⟩)
    ∨ (runMain env db0 = ⟨1, db0, [.fetch, .userId, .gen]⟩)
    ∨ (∃ arts a rest,
        env.fetchResult = .ok arts ∧
        filterNewArticles arts (get_published_urls db0) = .ok (a :: rest) ∧
        ((runMain env db0 =
            ⟨1, db0, [.fetch, .userId, .gen, .publish (a.link.getD "")]⟩ ∧
          ∃ e, env.publishResult = .error e)
        ∨ (∃ resp, env.publishResult = .ok resp ∧
            ((runMain env db0 =
                ⟨1, db0, [.fetch, .userId, .gen, .publish (a.link.getD ""),
                  .backup, .record (a.link.getD "")]⟩ ∧
              save_published_article db0 (a.link.getD "") a.title
                ((resp.id).getD "") = .error .uniqueViolation)
            ∨ (∃ db1, save_published_article db0 (a.link.getD "") a.title
                ((resp.id).getD "") = .ok db1 ∧
                runMain env db0 =
                  ⟨0, db1, [.fetch, .userId, .gen, .publish (a.link.getD ""),
                    .backup, .record (a.link.getD "")]⟩))))) := by
  cases h1 : pyFalsy env.access_token with
  | true => left; simp [runMain, h1]
  | false =>
  cases h2 : pyFalsy env.articles_api_url with
  | true => left; simp [runMain, h1, h2]
  | false =>
  cases hf : env.fetchResult with
  | error e => right; left; simp [runMain, h1, h2, hf]
  | ok arts =>
  cases hfl : filterNewArticles arts (get_published_urls db0) with
  | error e => right; left; simp [runMain, h1, h2, hf, hfl]
  | ok l =>
  cases l with
  | nil => right; right; left; simp [runMain, h1, h2, hf, hfl]
  | cons a rest =>
  cases hu : env.userIdResult with
  | error e => right; right; right; left; simp [runMain, h1, h2, hf, hfl, hu]
  | ok uid =>
  cases hg : create_post_text a env.llmResult with
  | error e =>
    right; right; right; right; left
    simp [runMain, h1, h2, hf, hfl, hu, hg]
  | ok txt =>
  cases hp : env.publishResult with
  | error e =>
    right; right; right; right; right
    exact ⟨arts, a, rest, rfl, hfl, Or.inl
      ⟨by simp [runMain, h1, h2, hf, hfl, hu, hg, hp], e, rfl⟩⟩
  | ok resp =>
  cases hs : save_published_article db0 (a.link.getD "") a.title ((resp.id).getD "") with
  | error e =>
    right; right; right; right; right
    refine ⟨arts, a, rest, rfl, hfl, Or.inr ⟨resp, rfl, Or.inl
      ⟨by simp [runMain, h1, h2, hf, hfl, hu, hg, hp, hs], ?_⟩⟩⟩
    cases e
    exact hs
  | ok db1 =>
    right; right; right; right; right
    exact ⟨arts, a, rest, rfl, hfl, Or.inr ⟨resp, rfl, Or.inr
      ⟨db1, hs, by simp [runMain, h1, h2, hf, hfl, hu, hg, hp, hs]⟩⟩⟩

/-! ## Claim C3 -/

/-- C3: a ledger record event occurs only in runs whose publish call
succeeded, and then backup precedes record in the trace; on the success path
the run exits 0 and appends exactly the one new row, carrying the published
link and the external post id. -/
theorem record_after_publish :
    (∀ (env : Env) (db0 : List DbRow) (u : String),
      Event.record u ∈ (runMain env db0).events →
      (∃ r, env.publishResult = .ok r) ∧
      (runMain env db0).events =
        [.fetch, .userId, .gen, .publish u, .backup, .record u]) ∧
    (∀ (env : Env) (db0 : List DbRow) (arts : List Article) (a : Article)
      (rest : List Article) (l uid txt p : String),
      pyFalsy env.access_token = false → pyFalsy env.articles_api_url = false →
      env.fetchResult = .ok arts →
      filterNewArticles arts (get_published_urls db0) = .ok (a :: rest) →
      env.userIdResult = .ok uid → create_post_text a env.llmResult = .ok txt →
      env.publishResult = .ok ⟨some p⟩ → a.link = some l →
      l ∉ db0.map DbRow.url →
      runMain env db0 =
        ⟨0, db0 ++ [⟨l, a.title, p⟩],
          [.fetch, .userId, .gen, .publish l, .backup, .record l]⟩) := by
  constructor
  · intro env db0 u hm
    rcases runMain_cases env db0 with h | h | h | h | h |
      ⟨arts, a, rest, hf, hfl, ⟨h, e, hp⟩ | ⟨resp, hp, ⟨h, hs⟩ | ⟨db1, hs, h⟩⟩⟩
    · rw [h] at hm; simp at hm
    · rw [h] at hm; simp at hm
    · rw [h] at hm; simp at hm
    · rw [h] at hm; simp at hm
    · rw [h] at hm; simp at hm
    · rw [h] at hm; simp at hm
    · rw [h] at hm ⊢
      simp only [RunResult.events] at hm ⊢
      simp at hm
      subst hm
      exact ⟨⟨resp, hp⟩, rfl⟩
    · rw [h] at hm ⊢
      simp only [RunResult.events] at hm ⊢
      simp at hm
      subst hm
      exact ⟨⟨resp, hp⟩, rfl⟩
  · intro env db0 arts a rest l uid txt p h1 h2 hf hfl hu hg hp hl hnot
    have hs : save_published_article db0 l a.title p =
        .ok (db0 ++ [⟨l, a.title, p⟩]) := by
      simp [save_published_article, hnot]
    simp [runMain, h1, h2, hf, hfl, hu, hg, hp, hs, hl]

/-- C3 witness: a fully successful run over one fresh article. -/
theorem record_after_publish_witness :
    runMain ⟨some "token", some "https://api.example", .ok [artFresh], .ok "uid",
        .ok okPost, .ok ⟨some "p1"⟩⟩ [] =
      ⟨0, [⟨"https://e.com/f", some "F", "p1"⟩],
        [.fetch, .userId, .gen, .publish "https://e.com/f", .backup,
          .record "https://e.com/f"]⟩ :=
  record_after_publish.2 _ _ [artFresh] artFresh [] "https://e.com/f" "uid"
    okPost "p1" (by decide) (by decide) rfl (by decide) rfl (by decide) rfl
    (by decide) (by decide)


/-! ## Claim C4 -/

/-- C4: when the text-generation call fails, the run aborts with exit code 1,
the Publisher is never invoked and the ledger is unchanged. -/
theorem generation_failure_aborts (env : Env) (db0 : List DbRow)
    (arts : List Article) (a : Article) (rest : List Article) (uid : String)
    (e : PostGenerationError)
    (h1 : pyFalsy env.access_token = false)
    (h2 : pyFalsy env.articles_api_url = false)
    (hf : env.fetchResult = .ok arts)
    (hfl : filterNewArticles arts (get_published_urls db0) = .ok (a :: rest))
    (hu : env.userIdResult = .ok uid)
    (hg : create_post_text a env.llmResult = .error e) :
    runMain env db0 = ⟨1, db0, [.fetch, .userId, .gen]⟩ ∧
    (∀ u, Event.publish u ∉ (runMain env db0).events) ∧
    (runMain env db0).db = db0 ∧ (runMain env db0).exitCode = 1 := by
  have hrun : runMain env db0 = ⟨1, db0, [.fetch, .userId, .gen]⟩ := by
    simp [runMain, h1, h2, hf, hfl, hu, hg]
  refine ⟨hrun, ?_, by rw [hrun], by rw [hrun]⟩
  intro u
  rw [hrun]
  simp

/-- C4 witness: the text-generation oracle raises. -/
theorem generation_failure_aborts_witness :
    runMain ⟨some "token", some "https://api.example", .ok [artFresh], .ok "uid",
        .error "boom", .ok ⟨some "p1"⟩⟩ [] = ⟨1, [], [.fetch, .userId, .gen]⟩ :=
  (generation_failure_aborts _ _ [artFresh] artFresh [] "uid"
    (.wrapped "Failed to generate post: boom") (by decide) (by decide) rfl
    (by decide) rfl (by decide)).1

/-! ## Claim C5 -/

/-- C5: when the publish call fails, no ledger record is written, the same
candidate is still the first eligible one against the unchanged ledger, and
the run aborts with exit code 1. -/
theorem publish_failure_no_record (env : Env) (db0 : List DbRow)
    (arts : List Article) (a : Article) (rest : List Article)
    (uid txt : String) (e : Unit)
    (h1 : pyFalsy env.access_token = false)
    (h2 : pyFalsy env.articles_api_url = false)
    (hf : env.fetchResult = .ok arts)
    (hfl : filterNewArticles arts (get_published_urls db0) = .ok (a :: rest))
    (hu : env.userIdResult = .ok uid)
    (hg : create_post_text a env.llmResult = .ok txt)
    (hp : env.publishResult = .error e) :
    runMain env db0 =
      ⟨1, db0, [.fetch, .userId, .gen, .publish (a.link.getD "")]⟩ ∧
    (∀ u, Event.record u ∉ (runMain env db0).events) ∧
    (runMain env db0).db = db0 ∧
    filterNewArticles arts (get_published_urls (runMain env db0).db) =
      .ok (a :: rest) ∧
    (runMain env db0).exitCode = 1 := by
  have hrun : runMain env db0 =
      ⟨1, db0, [.fetch, .userId, .gen, .publish (a.link.getD "")]⟩ := by
    simp [runMain, h1, h2, hf, hfl, hu, hg, hp]
  refine ⟨hrun, ?_, by rw [hrun], by rw [hrun]; exact hfl, by rw [hrun]⟩
  intro u
  rw [hrun]
  simp

/-- C5 witness: the publish call raises. -/
theorem publish_failure_no_record_witness :
    runMain ⟨some "token", some "https://api.example", .ok [artFresh], .ok "uid",
        .ok okPost, .error ()⟩ [] =
      ⟨1, [], [.fetch, .userId, .gen, .publish "https://e.com/f"]⟩ :=
  (publish_failure_no_record _ _ [artFresh] artFresh [] "uid" okPost ()
    (by decide) (by decide) rfl (by decide) rfl (by decide) rfl).1

/-! ## Claim C6 -/

/-- C6: the filter preserves source order (its output is a sublist of its
input); an empty eligible sequence ends the run successfully with exit 0,
no Publisher call and no ledger write; a run performs at most one publish
event, and any publish event targets the first eligible candidate. -/
theorem filter_order_and_single_publish :
    (∀ (articles : List Article) (pubs : List String) (res : List Article),
      filterNewArticles articles pubs = .ok res → List.Sublist res articles) ∧
    (∀ (env : Env) (db0 : List DbRow) (arts : List Article),
      pyFalsy env.access_token = false → pyFalsy env.articles_api_url = false →
      env.fetchResult = .ok arts →
      filterNewArticles arts (get_published_urls db0) = .ok [] →
      runMain env db0 = ⟨0, db0, [.fetch]⟩) ∧
    (∀ (env : Env) (db0 : List DbRow),
      ((runMain env db0).events.countP Event.isPublish) ≤ 1) ∧
    (∀ (env : Env) (db0 : List DbRow) (arts : List Article) (a : Article)
      (rest : List Article) (u : String),
      env.fetchResult = .ok arts →
      filterNewArticles arts (get_published_urls db0) = .ok (a :: rest) →
      Event.publish u ∈ (runMain env db0).events → u = a.link.getD "") := by
  refine ⟨?_, ?_, ?_, ?_⟩
  · intro articles pubs res h
    exact selectEligible_sublist articles pubs MIN_PUBLISH_DATE res h
  · intro env db0 arts h1 h2 hf hfl
    simp [runMain, h1, h2, hf, hfl]
  · intro env db0
    rcases runMain_cases env db0 with h | h | h | h | h |
      ⟨arts, a, rest, hf, hfl, ⟨h, e, hp⟩ | ⟨resp, hp, ⟨h, hs⟩ | ⟨db1, hs, h⟩⟩⟩ <;>
      rw [h] <;> simp [List.countP_cons, Event.isPublish]
  · intro env db0 arts a rest u hf hfl hm
    rcases runMain_cases env db0 with h | h | h | h | h |
      ⟨arts2, a2, rest2, hf2, hfl2, ⟨h, e, hp⟩ | ⟨resp, hp, ⟨h, hs⟩ | ⟨db1, hs, h⟩⟩⟩
    · rw [h] at hm; simp at hm
    · rw [h] at hm; simp at hm
    · rw [h] at hm; simp at hm
    · rw [h] at hm; simp at hm
    · rw [h] at hm; simp at hm
    all_goals {
      have harts : arts2 = arts := by
        rw [hf] at hf2
        exact (Except.ok.inj hf2).symm
      subst harts
      rw [hfl] at hfl2
      have ha : a2 = a := (List.cons.inj (Except.ok.inj hfl2)).1.symm
      subst ha
      rw [h] at hm
      simp at hm
      exact hm
    }

/-- C6 witness: an empty eligible sequence (every candidate known or stale)
exits 0 having only fetched. -/
theorem filter_order_and_single_publish_witness :
    runMain ⟨some "token", some "https://api.example",
        .ok [artKnown, artJustBefore], .ok "uid", .ok okPost, .ok ⟨some "p1"⟩⟩
      [⟨"k", some "K", "p0"⟩] =
      ⟨0, [⟨"k", some "K", "p0"⟩], [.fetch]⟩ :=
  filter_order_and_single_publish.2.1 _ _ [artKnown, artJustBefore]
    (by decide) (by decide) rfl (by decide)

/-! ## Claim C10 -/

/-- C10: a candidate without a link field never matches the known-url check,
and when such a candidate is published the recorded url is the empty
string. -/
theorem absent_link_not_excluded :
    (∀ (pubs : List String) (a : Article), a.link = none →
      linkInPublished pubs a = false) ∧
    (∀ (env : Env) (db0 : List DbRow) (arts : List Article) (a : Article)
      (rest : List Article) (uid txt p : String),
      pyFalsy env.access_token = false → pyFalsy env.articles_api_url = false →
      env.fetchResult = .ok arts →
      filterNewArticles arts (get_published_urls db0) = .ok (a :: rest) →
      env.userIdResult = .ok uid → create_post_text a env.llmResult = .ok txt →
      env.publishResult = .ok ⟨some p⟩ → a.link = none →
      "" ∉ db0.map DbRow.url →
      runMain env db0 = ⟨0, db0 ++ [⟨"", a.title, p⟩],
        [.fetch, .userId, .gen, .publish "", .backup, .record ""]⟩) := by
  constructor
  · intro pubs a hl
    simp [linkInPublished, hl]
  · intro env db0 arts a rest uid txt p h1 h2 hf hfl hu hg hp hl hnot
    have hs : save_published_article db0 "" a.title p =
        .ok (db0 ++ [⟨"", a.title, p⟩]) := by
      simp [save_published_article, hnot]
    simp [runMain, h1, h2, hf, hfl, hu, hg, hp, hs, hl]

/-- C10 witness: a linkless candidate is selected from a ledger that does not
know it, and the recorded row has the empty url. -/
theorem absent_link_not_excluded_witness :
    runMain ⟨some "token", some "https://api.example", .ok [artNoLink],
        .ok "uid", .ok okPost, .ok ⟨some "p2"⟩⟩ [⟨"k", some "K", "p0"⟩] =
      ⟨0, [⟨"k", some "K", "p0"⟩, ⟨"", some "L", "p2"⟩],
        [.fetch, .userId, .gen, .publish "", .backup, .record ""]⟩ :=
  absent_link_not_excluded.2 _ _ [artNoLink] artNoLink [] "uid" okPost "p2"
    (by decide) (by decide) rfl (by decide) rfl (by decide) rfl rfl (by decide)


/-! ## Claim C7 -/

/-- C7: the generator fails with a PostGenerationError exactly when the
underlying call raises or the returned text strips to fewer than 20
characters; any text it returns strips to at least 20 characters. -/
theorem generate_error_iff (t d b : String) (pp : Option (List String))
    (llm : Except String String) :
    ((∃ e, generate_linkedin_post t d b pp llm = .error e) ↔
      (∃ m, llm = .error m) ∨ (∃ s, llm = .ok s ∧ (pyStrip s).length < 20)) ∧
    (∀ s, generate_linkedin_post t d b pp llm = .ok s →
      20 ≤ (pyStrip s).length) := by
  cases llm with
  | error m =>
    constructor
    · simp [generate_linkedin_post]
    · intro s h
      simp [generate_linkedin_post] at h
  | ok s0 =>
    have hgen : generate_linkedin_post t d b pp (.ok s0) =
        if s0 = "" ∨ (pyStrip s0).length < 20 then .error .emptyOrShort
        else .ok s0 := rfl
    rw [hgen]
    by_cases hcond : s0 = "" ∨ (pyStrip s0).length < 20
    · rw [if_pos hcond]
      constructor
      · constructor
        · intro _
          right
          refine ⟨s0, rfl, ?_⟩
          rcases hcond with h0 | hlt
          · subst h0; decide
          · exact hlt
        · intro _
          exact ⟨.emptyOrShort, rfl⟩
      · intro s h
        simp at h
    · rw [if_neg hcond]
      push_neg at hcond
      constructor
      · constructor
        · rintro ⟨e, he⟩
          simp at he
        · rintro (⟨m, hm⟩ | ⟨s, hs, hlt⟩)
          · simp at hm
          · have hss : s0 = s := Except.ok.inj hs
            subst hss
            exact absurd hlt (not_lt.mpr hcond.2)
      · intro s h
        have hss : s0 = s := Except.ok.inj h
        subst hss
        exact hcond.2

/-- C7 witness: a successful generation of a long-enough post. -/
theorem generate_error_iff_witness :
    generate_linkedin_post "T" "D" "B" none (.ok okPost) = .ok okPost ∧
    20 ≤ (pyStrip okPost).length :=
  ⟨by decide, (generate_error_iff "T" "D" "B" none (.ok okPost)).2 okPost
    (by decide)⟩

/-! ## Lemmas about backups -/

lemma insertBackup_of_forall_lt (t : Nat) (s : List Nat)
    (h : ∀ x ∈ s, x < t) : insertBackup t s = t :: s := by
  cases s with
  | nil => rfl
  | cons x xs => simp [insertBackup, h x (List.mem_cons_self x xs)]

/-! ## Claim C8 -/

/-- C8 (amended): for backup calls at strictly increasing clock readings
(no two in the same second) with the ledger present, the backup directory
holds exactly the min(5, number of calls) most recent copies, oldest
removed first. -/
theorem backup_retention :
    ∀ times : List Nat, List.Sorted (· < ·) times →
      backupRun times = times.reverse.take 5 := by
  intro times
  induction times using List.reverseRecOn with
  | nil => intro _; rfl
  | append_singleton ys t ih =>
    intro h
    obtain ⟨hys, -, hrel⟩ := List.pairwise_append.mp h
    have hlt : ∀ x ∈ ys.reverse.take 5, x < t := by
      intro x hx
      exact hrel x (List.mem_reverse.mp (List.mem_of_mem_take hx)) t
        (List.mem_singleton.mpr rfl)
    have hstep : backupRun (ys ++ [t]) = backup_db true t (backupRun ys) := by
      unfold backupRun
      rw [List.foldl_append]
      rfl
    rw [hstep, ih hys]
    unfold backup_db
    rw [if_pos rfl, insertBackup_of_forall_lt t _ hlt]
    rw [List.reverse_append]
    simp [List.take_succ_cons, List.take_take]

/-- C8 counterexample to the unrestricted claim: two backup calls within the
same second leave one file, not min(5, 2) = 2. -/
theorem backup_retention_counterexample :
    backupRun [0, 0] = [0] ∧ min 5 ([0, 0] : List Nat).length = 2 := by
  decide

/-- C8 witness: seven strictly increasing backups retain the five newest. -/
theorem backup_retention_witness :
    List.Sorted (fun a b : Nat => a < b) [1, 2, 3, 4, 5, 6, 7] ∧
    backupRun [1, 2, 3, 4, 5, 6, 7] = [7, 6, 5, 4, 3] :=
  ⟨by decide, (backup_retention [1, 2, 3, 4, 5, 6, 7] (by decide)).trans
    (by decide)⟩

end LinkedinBot
